import Mathlib

/-!
Shallow embedding of the usage-tracking pipeline of the `copilot-tracker`
application (Rust/Tauri sources under `src-tauri/src/`), together with
theorems checking the natural-language specification against it.

Embedding conventions:
* Rust `u32`/`u64` values are modelled as `Nat`; the explicit Rust casts
  (`as u32`) are modelled by reduction modulo `2 ^ 32` (integer casts
  truncate) or by clamping (float-to-integer casts saturate).  Rust
  `saturating_sub` coincides with truncated `Nat` subtraction.
* Rust `i64` timestamps are modelled as `Int`.
* Rust `f32`/`f64` arithmetic is modelled exactly over `ℚ` (the usual
  real-valued idealization of floating point; the program only forms
  sums, products and quotients of small quantities).
* Functions of external libraries (`chrono` string parsers, `serde_json`
  string parsing, `str::parse`) are abstracted as function parameters;
  everything written in the repository itself is translated directly.
* Async code is modelled by explicit state passing: each Tauri command or
  method becomes a function from the relevant state to the new state and
  the returned value.
-/

/-! ### Calendar arithmetic (chrono `NaiveDate` facts used by the code)

The code computes month lengths as
`NaiveDate::from_ymd_opt(y, m+1, 1) - NaiveDate::from_ymd_opt(y, m, 1)`.
We embed proleptic-Gregorian dates (restricted to year ≥ 1, which covers
every date reachable from `chrono::Utc::now()`) by their day count. -/

/-- An (assumed valid) Gregorian calendar date with 1-indexed month and day. -/
structure CivDate where
  year : Nat
  month : Nat
  day : Nat
  deriving DecidableEq, Repr

/-- Gregorian leap-year rule, as implemented by chrono. -/
def isLeapYear (y : Nat) : Bool :=
  y % 4 == 0 && (y % 100 != 0 || y % 400 == 0)

/-- Length in days of month `m` (1-indexed) of year `y`; `0` for an invalid month. -/
def monthLength (y m : Nat) : Nat :=
  match m with
  | 1 => 31
  | 2 => if isLeapYear y then 29 else 28
  | 3 => 31
  | 4 => 30
  | 5 => 31
  | 6 => 30
  | 7 => 31
  | 8 => 31
  | 9 => 30
  | 10 => 31
  | 11 => 30
  | 12 => 31
  | _ => 0

/-- Days of year `y` that lie strictly before month `m` (1-indexed). -/
def daysBeforeMonth (y : Nat) : Nat → Nat
  | 0 => 0
  | m + 1 => daysBeforeMonth y m + monthLength y m

/-- Number of leap years among years `1, …, n`. -/
def leapYearsUpto (n : Nat) : Nat :=
  n / 4 - n / 100 + n / 400

/-- Day number of a Gregorian date, counting `0001-01-01` as day `0`
(the day-serial order underlying chrono `NaiveDate` subtraction). -/
def dateToDays (d : CivDate) : Nat :=
  365 * (d.year - 1) + leapYearsUpto (d.year - 1) + daysBeforeMonth d.year d.month + (d.day - 1)

/-- Unix timestamp (seconds) of midnight UTC of a date, as produced by
`naive_date.and_hms_opt(0, 0, 0).unwrap().and_utc().timestamp()`. -/
def dateToTimestamp (d : CivDate) : Int :=
  ((dateToDays d : Int) - (dateToDays ⟨1970, 1, 1⟩ : Int)) * 86400

/-- Month length as the code computes it (`usage.rs`,
`predict_usage_from_history` and `predict_eom_usage`): December is mapped
directly to `31` (the December→January rollover case), every other month is
the day-serial difference between the first day of the next month and the
first day of the current month. -/
def days_in_month (y m : Nat) : Nat :=
  if m == 12 then 31
  else dateToDays ⟨y, m + 1, 1⟩ - dateToDays ⟨y, m, 1⟩

/-! ### Data model (`usage.rs`, `store.rs`, `auth.rs` struct definitions) -/

/-- `usage.rs` `UsageSummary`. -/
structure UsageSummary where
  used : Nat
  limit : Nat
  remaining : Nat
  percentage : ℚ
  timestamp : Int
  deriving DecidableEq, Repr

/-- `usage.rs` `UsageEntry`. -/
structure UsageEntry where
  timestamp : Int
  used : Nat
  limit : Nat
  included_requests : Nat
  billed_requests : Nat
  gross_amount : ℚ
  billed_amount : ℚ
  deriving DecidableEq, Repr

/-- `usage.rs` `UsagePrediction`. -/
structure UsagePrediction where
  predicted_monthly_requests : Nat
  predicted_billed_amount : ℚ
  confidence_level : String
  days_used_for_prediction : Nat
  deriving DecidableEq, Repr

/-- `auth.rs` `UsageHistoryRow` (one raw scraped table row). -/
structure UsageHistoryRow where
  date : String
  included_requests : Nat
  billed_requests : Nat
  gross_amount : ℚ
  billed_amount : ℚ
  deriving DecidableEq, Repr

/-- `auth.rs` `UsageData` (numbers scraped from the usage card). -/
structure UsageData where
  net_billed_amount : ℚ
  net_quantity : Nat
  discount_quantity : Nat
  user_premium_request_entitlement : Nat
  filtered_user_premium_request_entitlement : Nat
  deriving DecidableEq, Repr

/-- `store.rs` `UsageCache`. -/
structure UsageCache where
  customer_id : Nat
  net_quantity : Nat
  discount_quantity : Nat
  user_premium_request_entitlement : Nat
  filtered_user_premium_request_entitlement : Nat
  net_billed_amount : ℚ
  timestamp : Int
  deriving DecidableEq, Repr

/-- Rust `x as u32` on an unsigned integer: truncation modulo `2 ^ 32`. -/
def u32Cast (n : Nat) : Nat := n % 2 ^ 32

/-- Largest `u32` value. -/
def u32Max : Nat := 2 ^ 32 - 1

/-- Rust `f as u32` on a non-negative float value `q`: rounds toward zero and
saturates at `u32::MAX`.  The code always applies it right after `.round()`,
so we take an integer argument. -/
def f32ToU32 (z : Int) : Nat := min z.toNat u32Max

/-! ### `usage.rs` functions -/

/-- `UsageManager::get_cached_usage` (usage.rs:161-179): builds a summary from
the store's `(last_usage, usage_limit)` pair; `remaining` is
`limit.saturating_sub(used)` and `percentage` is recomputed. -/
def get_cached_usage (used limit : Nat) (now : Int) : UsageSummary :=
  { used := used
  , limit := limit
  , remaining := limit - used
  , percentage := if 0 < limit then (used : ℚ) / (limit : ℚ) * 100 else 0
  , timestamp := now }

/-- The `UsageSummary` built inline in `UsageManager::fetch_usage`
(usage.rs:116-122) from the freshly extracted `used`/`limit`. -/
def fetch_usage_summary (used limit : Nat) (now : Int) : UsageSummary :=
  { used := used
  , limit := limit
  , remaining := limit - used
  , percentage := if 0 < limit then (used : ℚ) / (limit : ℚ) * 100 else 0
  , timestamp := now }

/-- One row of `UsageManager::map_history_rows` (usage.rs:206-237): the date
string is tried as RFC3339, then its first space-separated chunk as
`%Y-%m-%d` (timestamped at midnight UTC), and otherwise the current time is
used; `used` is the `u32` sum `included_requests + billed_requests`, which
wraps modulo `2 ^ 32` on overflow (release-build Rust semantics).  The two
chrono parsers are abstracted as `rfc3339` and `parseYMD`. -/
def row_to_entry (rfc3339 : String → Option Int) (parseYMD : String → Option CivDate)
    (now : Int) (row : UsageHistoryRow) : UsageEntry :=
  let timestamp : Int :=
    match rfc3339 row.date with
    | some ts => ts
    | none =>
      let date_part := (row.date.splitOn " ").headD ""
      match parseYMD date_part with
      | some d => dateToTimestamp d
      | none => now
  { timestamp := timestamp
  , used := u32Cast (row.included_requests + row.billed_requests)
  , limit := 0
  , included_requests := row.included_requests
  , billed_requests := row.billed_requests
  , gross_amount := row.gross_amount
  , billed_amount := row.billed_amount }

/-- `UsageManager::map_history_rows` (usage.rs:206-237): map every row and
stable-sort descending by timestamp (`sort_by(|a, b| b.timestamp.cmp(&a.timestamp))`,
a stable sort, here realized by Mathlib's stable `insertionSort`). -/
def map_history_rows (rfc3339 : String → Option Int) (parseYMD : String → Option CivDate)
    (now : Int) (rows : List UsageHistoryRow) : List UsageEntry :=
  List.insertionSort (fun a b => b.timestamp ≤ a.timestamp)
    (rows.map (row_to_entry rfc3339 parseYMD now))

/-- `UsageManager::get_cached_history` (usage.rs:181-200): a non-empty stored
history is returned as is; otherwise a single entry is synthesized from the
usage cache when one exists; otherwise the empty list. The `as u32` casts of
the source truncate the `u64` cache fields. -/
def get_cached_history (history : List UsageEntry) (cache : Option UsageCache) :
    List UsageEntry :=
  if !history.isEmpty then history
  else
    match cache with
    | some c =>
      [{ timestamp := c.timestamp
       , used := u32Cast c.discount_quantity
       , limit := u32Cast c.user_premium_request_entitlement
       , included_requests := u32Cast c.discount_quantity
       , billed_requests := u32Cast (c.net_quantity - c.discount_quantity)
       , gross_amount := c.net_billed_amount
       , billed_amount := c.net_billed_amount }]
    | none => []

/-- `UsageManager::predict_usage_from_history` (usage.rs:318-364).  `today`
stands for `chrono::Utc::now()`; float arithmetic is exact over `ℚ` and the
final `as u32` saturates via `f32ToU32`.  `history.len() as u32` is
`u32Cast`-truncated like every integer cast. -/
def predict_usage_from_history (today : CivDate) (history : List UsageEntry)
    (used limit : Nat) : Option UsagePrediction :=
  if history.isEmpty then none
  else
    let current_day : ℚ := (today.day : ℚ)
    let daysInMonthNow : Nat := days_in_month today.year today.month
    if current_day == 0 then none
    else
      let daily_average : ℚ := (used : ℚ) / current_day
      let remaining_days : ℚ := (daysInMonthNow : ℚ) - current_day
      let predicted : ℚ := (used : ℚ) + daily_average * remaining_days
      let predicted_monthly_requests : Nat := f32ToU32 (round (max predicted 0))
      let excess_requests : Nat := predicted_monthly_requests - limit
      let predicted_billed_amount : ℚ := (excess_requests : ℚ) * (4 / 100)
      let confidence_level : String :=
        if history.length < 3 then "low"
        else if history.length < 7 then "medium"
        else "high"
      some
        { predicted_monthly_requests := predicted_monthly_requests
        , predicted_billed_amount := predicted_billed_amount
        , confidence_level := confidence_level
        , days_used_for_prediction := u32Cast history.length }

/-! ### `store.rs`: settings object and store operations -/

/-- `store.rs` `WidgetPosition`. -/
structure WidgetPosition where
  x : Int
  y : Int
  deriving DecidableEq, Repr

/-- `store.rs` `AppSettings`. -/
structure AppSettings where
  customer_id : Option Nat
  usage_limit : Nat
  last_usage : Nat
  last_fetch_timestamp : Int
  launch_at_login : Bool
  show_notifications : Bool
  notification_thresholds : List Nat
  update_channel : String
  is_authenticated : Bool
  refresh_interval : Nat
  prediction_period : Nat
  start_minimized : Bool
  theme : String
  tray_icon_format : String
  widget_enabled : Bool
  widget_position : WidgetPosition
  widget_pinned : Bool
  widget_visible : Bool
  deriving DecidableEq, Repr

/-- `Default for AppSettings` (store.rs:130-153). -/
def defaultAppSettings : AppSettings :=
  { customer_id := none
  , usage_limit := 1200
  , last_usage := 0
  , last_fetch_timestamp := 0
  , launch_at_login := false
  , show_notifications := true
  , notification_thresholds := [75, 90, 100]
  , update_channel := "stable"
  , is_authenticated := false
  , refresh_interval := 60
  , prediction_period := 7
  , start_minimized := true
  , theme := "system"
  , tray_icon_format := "currentTotal"
  , widget_enabled := false
  , widget_position := { x := 100, y := 100 }
  , widget_pinned := true
  , widget_visible := false }

/-- `StoreManager::update_settings` (store.rs:253-264): the single settings
write path; applies the mutator under the lock (and then persists). -/
def update_settings (s : AppSettings) (updater : AppSettings → AppSettings) : AppSettings :=
  updater s

/-- `StoreManager::set_customer_id` (store.rs:267-272). -/
def set_customer_id (s : AppSettings) (id : Nat) : AppSettings :=
  update_settings s (fun t => { t with customer_id := some id, is_authenticated := true })

/-- `StoreManager::set_usage` (store.rs:280-286). -/
def set_usage (s : AppSettings) (used limit : Nat) (now : Int) : AppSettings :=
  update_settings s (fun t =>
    { t with last_usage := used, usage_limit := limit, last_fetch_timestamp := now })

/-- `StoreManager::set_launch_at_login` (store.rs:295-299). -/
def set_launch_at_login (s : AppSettings) (enabled : Bool) : AppSettings :=
  update_settings s (fun t => { t with launch_at_login := enabled })

/-- `StoreManager::set_show_notifications` (store.rs:307-311). -/
def set_show_notifications (s : AppSettings) (enabled : Bool) : AppSettings :=
  update_settings s (fun t => { t with show_notifications := enabled })

/-- `StoreManager::clear_auth` (store.rs:324-329). -/
def clear_auth (s : AppSettings) : AppSettings :=
  update_settings s (fun t => { t with customer_id := none, is_authenticated := false })

/-- Settings part of `StoreManager::reset_settings` (store.rs:377-402):
the whole object is replaced by the defaults. -/
def reset_settings (s : AppSettings) : AppSettings :=
  update_settings s (fun _ => defaultAppSettings)

/-- The `update_settings` Tauri command (store.rs:492-495): replaces the whole
settings object by one supplied by the frontend, with no validation. -/
def update_settings_command (s : AppSettings) (settings : AppSettings) : AppSettings :=
  update_settings s (fun _ => settings)

/-- The spec's authentication invariant:
`isAuthenticated == customerIdentifier.isSome()`. -/
def authInvariant (s : AppSettings) : Prop :=
  s.is_authenticated = s.customer_id.isSome

instance (s : AppSettings) : Decidable (authInvariant s) := by
  unfold authInvariant; infer_instance

/-- In-memory and on-disk state of the usage-history part of the store
(`usage_history: Mutex<Vec<UsageEntry>>` and `usage_history.json`). -/
structure StoreHistoryState where
  usage_history : List UsageEntry
  history_disk : Option (List UsageEntry)
  deriving DecidableEq, Repr

/-- `StoreManager::set_usage_history` (store.rs:357-371): replaces the
in-memory list under the lock, releases the lock, then writes the same list
to disk; a failed write (`diskWriteOk = false`) is only logged. -/
def set_usage_history (s : StoreHistoryState) (history : List UsageEntry)
    (diskWriteOk : Bool) : StoreHistoryState :=
  let s1 := { s with usage_history := history }
  if diskWriteOk then { s1 with history_disk := some history } else s1

/-- `StoreManager::get_usage_history` (store.rs:373-375): clones the
in-memory list. -/
def get_usage_history (s : StoreHistoryState) : List UsageEntry :=
  s.usage_history

/-! ### `auth.rs`: message bridge and extraction orchestrator -/

/-- `auth.rs` `HiddenWebviewEvent`: a named event with a JSON-string payload. -/
structure HiddenWebviewEvent where
  event : String
  payload : String
  deriving DecidableEq, Repr

/-- State of the message bridge: the global sender slot
(`HIDDEN_WEBVIEW_EVENTS: TokioMutex<Option<Sender<_>>>`, auth.rs:10) plus the
underlying tokio mpsc channel (capacity 10), abstracted to its buffered FIFO
contents and whether the receiver half is still alive. -/
structure BridgeState where
  sender_installed : Bool
  receiver_alive : Bool
  queue : List HiddenWebviewEvent
  deriving DecidableEq, Repr

/-- Capacity of the bridge channel (`mpsc::channel::<HiddenWebviewEvent>(10)`). -/
def bridge_channel_capacity : Nat := 10

/-- Semantics of tokio `Sender::send(value).await`: the send waits until the
channel has capacity and then enqueues the value — a momentarily full channel
delays the send but never loses the value (capacity only bounds how much may
be buffered at once); the call returns `Err` exactly when the receiver half
has been dropped, in which case the value is lost.  The returned `Bool` is
`Ok`-ness of the send. -/
def mpsc_send_await (b : BridgeState) (ev : HiddenWebviewEvent) : BridgeState × Bool :=
  if b.receiver_alive then ({ b with queue := b.queue ++ [ev] }, true)
  else (b, false)

/-- The `hidden_webview_event` Tauri command (auth.rs:941-948): under the
global lock, if a sender is installed the event is sent with
`let _ = tx.send(..).await;` (the send result is discarded), otherwise the
event is dropped; the command always returns `Ok(())`. -/
def hidden_webview_event (b : BridgeState) (event payload : String) :
    BridgeState × Except String Unit :=
  if b.sender_installed then
    let sent := mpsc_send_await b { event := event, payload := payload }
    (sent.1, Except.ok ())
  else
    (b, Except.ok ())

/-- Minimal model of `serde_json::Value`, with numbers over `ℚ`. -/
inductive Json where
  | null : Json
  | bool : Bool → Json
  | num : ℚ → Json
  | str : String → Json
  | arr : List Json → Json
  | obj : List (String × Json) → Json

/-- `Value::get(key)` on objects (first binding wins), `None` otherwise. -/
def Json.getKey : Json → String → Option Json
  | Json.obj fields, key => (fields.find? (fun p => p.1 == key)).map (fun p => p.2)
  | _, _ => none

/-- `Value::as_bool`. -/
def Json.as_bool : Json → Option Bool
  | Json.bool b => some b
  | _ => none

/-- `Value::as_u64`: the number must be a non-negative integer fitting in 64 bits. -/
def Json.as_u64 : Json → Option Nat
  | Json.num q => if q.den = 1 ∧ 0 ≤ q.num ∧ q.num < 2 ^ 64 then some q.num.toNat else none
  | _ => none

/-- `Value::as_str`. -/
def Json.as_str : Json → Option String
  | Json.str s => some s
  | _ => none

/-- `Value::as_f64` (exact over `ℚ`). -/
def Json.as_f64 : Json → Option ℚ
  | Json.num q => some q
  | _ => none

/-- `Value::as_array`. -/
def Json.as_array : Json → Option (List Json)
  | Json.arr xs => some xs
  | _ => none

/-- Parsing of one usage-table row (auth.rs:837-878): requires a string `id`
and ≥ 5 cells; cells 1-4 hold included requests, billed requests, gross
amount and billed amount as strings (amounts with leading `$`s stripped by
`trim_start_matches('$')`); any missing piece discards the row.  The
`str::parse` standard-library parsers are abstracted as `pU32`/`pF64`. -/
def parse_history_row (pU32 : String → Option Nat) (pF64 : String → Option ℚ)
    (row : Json) : Option UsageHistoryRow := do
  let idStr ← (row.getKey "id").bind Json.as_str
  let cells ← (row.getKey "cells").bind Json.as_array
  if cells.length < 5 then none
  else do
    let includedCell ← cells[1]?
    let included_requests ← ((includedCell.getKey "value").bind Json.as_str).bind pU32
    let billedCell ← cells[2]?
    let billed_requests ← ((billedCell.getKey "value").bind Json.as_str).bind pU32
    let grossCell ← cells[3]?
    let grossStr ← (grossCell.getKey "value").bind Json.as_str
    let gross_amount ← pF64 (grossStr.dropWhile (fun c => c = '$'))
    let billedAmtCell ← cells[4]?
    let billedAmtStr ← (billedAmtCell.getKey "value").bind Json.as_str
    let billed_amount ← pF64 (billedAmtStr.dropWhile (fun c => c = '$'))
    some
      { date := idStr
      , included_requests := included_requests
      , billed_requests := billed_requests
      , gross_amount := gross_amount
      , billed_amount := billed_amount }

/-- Accumulator of the event loop inside `perform_extraction`
(auth.rs:798-801). -/
structure ExtractionLoopState where
  customer_id : Option Nat
  usage_data : Option UsageData
  usage_history : Option (List UsageHistoryRow)
  error : Option String
  deriving DecidableEq, Repr

/-- Initial accumulator: all fields start out `None`. -/
def initialLoopState : ExtractionLoopState :=
  { customer_id := none, usage_data := none, usage_history := none, error := none }

/-- Processing of one non-terminal bridge event by the loop in
`perform_extraction` (auth.rs:806-889); `parse` abstracts
`serde_json::from_str::<Value>` and an unparseable payload leaves the state
unchanged.  Unknown event names are ignored. -/
def extraction_step (parse : String → Option Json) (pU32 : String → Option Nat)
    (pF64 : String → Option ℚ) (s : ExtractionLoopState) (ev : HiddenWebviewEvent) :
    ExtractionLoopState :=
  if ev.event = "auth:extraction:customer" then
    match parse ev.payload with
    | some result =>
      if (((result.getKey "success").bind Json.as_bool).getD false) then
        { s with customer_id := (result.getKey "id").bind Json.as_u64 }
      else
        { s with error := (result.getKey "error").bind Json.as_str }
    | none => s
  else if ev.event = "auth:extraction:usage" then
    match parse ev.payload with
    | some result =>
      let s1 :=
        match (result.getKey "usageCard").bind (fun v => v.getKey "data") with
        | some usage_card =>
          { s with usage_data := some (
            { net_billed_amount := ((usage_card.getKey "netBilledAmount").bind Json.as_f64).getD 0
            , net_quantity := ((usage_card.getKey "netQuantity").bind Json.as_u64).getD 0
            , discount_quantity := ((usage_card.getKey "discountQuantity").bind Json.as_u64).getD 0
            , user_premium_request_entitlement :=
                ((usage_card.getKey "userPremiumRequestEntitlement").bind Json.as_u64).getD 0
            , filtered_user_premium_request_entitlement :=
                ((usage_card.getKey "filteredUserPremiumRequestEntitlement").bind Json.as_u64).getD 0 } : UsageData) }
        | none => s
      match ((((result.getKey "usageTable").bind (fun v => v.getKey "data")).bind
          (fun v => v.getKey "table")).bind (fun v => v.getKey "rows")).bind Json.as_array with
      | some rows =>
        { s1 with usage_history := some (rows.filterMap (parse_history_row pU32 pF64)) }
      | none => s1
    | none => s
  else s

/-- The `while let Some(event) = rx.recv()` loop of `perform_extraction`
(auth.rs:803-890) over the FIFO sequence of delivered events: the loop breaks
at the first terminal `auth:extraction:complete` event; the sender stays in
the global slot for the whole attempt, so the loop can end no other way. -/
def extraction_loop (parse : String → Option Json) (pU32 : String → Option Nat)
    (pF64 : String → Option ℚ) (s : ExtractionLoopState) :
    List HiddenWebviewEvent → ExtractionLoopState
  | [] => s
  | ev :: rest =>
    if ev.event = "auth:extraction:complete" then s
    else extraction_loop parse pU32 pF64 (extraction_step parse pU32 pF64 s ev) rest

/-- `auth.rs` `ExtractionResult`. -/
structure ExtractionResult where
  customer_id : Option Nat
  usage_data : Option UsageData
  usage_history : Option (List UsageHistoryRow)
  error : Option String
  deriving DecidableEq, Repr

/-- The result `perform_extraction` returns when the 30-second
`tokio::time::timeout` elapses (auth.rs:911-916). -/
def timed_out_result : ExtractionResult :=
  { customer_id := none
  , usage_data := none
  , usage_history := none
  , error := some "Extraction timed out" }

/-- Observable outcome of one `perform_extraction` call: the returned value
plus whether the hidden webview window was closed and the global sender slot
cleared on that path. -/
structure ExtractionOutcome where
  result : Except String ExtractionResult
  window_closed : Bool
  sender_cleared : Bool

/-- `AuthManager::perform_extraction` (auth.rs:780-918).  `webview_ok` is
whether `create_hidden_webview` succeeded (on failure the function returns
`Err` early, with the freshly installed sender left in place and no window to
close).  `events` is the FIFO sequence of bridge events delivered before the
30-second deadline; the inner future finishes before the deadline exactly
when that sequence contains the terminal `auth:extraction:complete` event,
and otherwise the timeout fires and the timed-out result is returned.  On
both of those paths `window.close()` is called and the sender slot is
cleared before returning. -/
def perform_extraction (parse : String → Option Json) (pU32 : String → Option Nat)
    (pF64 : String → Option ℚ) (webview_ok : Bool) (events : List HiddenWebviewEvent) :
    ExtractionOutcome :=
  if webview_ok then
    let completed := events.any (fun ev => ev.event == "auth:extraction:complete")
    let result :=
      if completed then extraction_loop parse pU32 pF64 initialLoopState events
      else
        { customer_id := none, usage_data := none, usage_history := none
        , error := some "Extraction timed out" }
    { result := Except.ok
        { customer_id := result.customer_id
        , usage_data := result.usage_data
        , usage_history := result.usage_history
        , error := result.error }
    , window_closed := true
    , sender_cleared := true }
  else
    { result := Except.error "Failed to create hidden webview"
    , window_closed := false
    , sender_cleared := false }

/-! ### `main.rs`: polling scheduler state -/

/-- Debounce window for polling restarts (`POLLING_RESTART_DEBOUNCE_MS`). -/
def POLLING_RESTART_DEBOUNCE_MS : Nat := 500

/-- `main.rs` `PollingState` (main.rs:69-77), with two bookkeeping fields
making the observable effects explicit: `spawn_count` counts polling loops
spawned so far (also serving as the fresh id of the next loop's cancellation
sender) and `cancel_signals` counts `try_send` attempts on cancellation
channels.  Instants are modelled as milliseconds (`Nat`);
`Instant::duration_since` saturates at zero exactly like `Nat` subtraction. -/
structure PollingState where
  cancel_tx : Option Nat
  last_restart : Nat
  last_interval : Nat
  is_shutting_down : Bool
  spawn_count : Nat
  cancel_signals : Nat
  deriving DecidableEq, Repr

/-- `PollingState::restart_polling` (main.rs:91-138): a no-op while shutting
down; a no-op when the same interval was requested within the last 500 ms;
otherwise records `(now, interval)`, takes and signals the previous
cancellation sender if any (best effort) and spawns a new loop, installing
its cancellation sender. -/
def restart_polling (s : PollingState) (now interval_seconds : Nat) : PollingState :=
  if s.is_shutting_down then s
  else if s.last_interval = interval_seconds ∧
      now - s.last_restart < POLLING_RESTART_DEBOUNCE_MS then s
  else
    { cancel_tx := some s.spawn_count
    , last_restart := now
    , last_interval := interval_seconds
    , is_shutting_down := s.is_shutting_down
    , spawn_count := s.spawn_count + 1
    , cancel_signals := s.cancel_signals + (if s.cancel_tx.isSome then 1 else 0) }

/-- `PollingState::stop_polling` (main.rs:141-163): sets the shutting-down
flag first, then takes and signals the cancellation sender if one is
installed. -/
def stop_polling (s : PollingState) : PollingState :=
  let s1 := { s with is_shutting_down := true }
  match s1.cancel_tx with
  | some _ => { s1 with cancel_tx := none, cancel_signals := s1.cancel_signals + 1 }
  | none => s1

/-- The operations the rest of the program performs on `PollingState`
(main.rs only ever calls `restart_polling` and `stop_polling`). -/
inductive PollOp where
  | restart : Nat → Nat → PollOp
  | stop : PollOp
  deriving DecidableEq, Repr

/-- Application of one scheduler operation. -/
def apply_poll_op (s : PollingState) : PollOp → PollingState
  | PollOp.restart now i => restart_polling s now i
  | PollOp.stop => stop_polling s

/-- Application of a sequence of scheduler operations, oldest first. -/
def apply_poll_ops (s : PollingState) (ops : List PollOp) : PollingState :=
  ops.foldl apply_poll_op s

/-! ### Concrete inputs used by witnesses and counterexamples -/

/-- A throwaway history entry for concrete instantiations. -/
def sampleEntry : UsageEntry :=
  { timestamp := 0, used := 0, limit := 0, included_requests := 0, billed_requests := 0
  , gross_amount := 0, billed_amount := 0 }

/-- A settings object that violates the authentication invariant: the
frontend can hand it to the `update_settings` command unchanged. -/
def c3_bad_settings : AppSettings :=
  { defaultAppSettings with is_authenticated := true }

/-- A usage cache whose `u64` counters do not fit in 32 bits. -/
def c10cache : UsageCache :=
  { customer_id := 1
  , net_quantity := 2 ^ 32
  , discount_quantity := 2 ^ 32
  , user_premium_request_entitlement := 5
  , filtered_user_premium_request_entitlement := 0
  , net_billed_amount := 0
  , timestamp := 0 }

/-- A history row whose two request counters sum past `u32::MAX`. -/
def c8_overflow_row : UsageHistoryRow :=
  { date := "x"
  , included_requests := 2 ^ 31
  , billed_requests := 2 ^ 31
  , gross_amount := 0
  , billed_amount := 0 }

/-- A bridge whose channel buffer is exactly at capacity. -/
def full_bridge : BridgeState :=
  { sender_installed := true
  , receiver_alive := true
  , queue := List.replicate bridge_channel_capacity { event := "e", payload := "p" } }

/-! ### Calendar lemmas -/

/-- The code's month-length computation agrees with the standard Gregorian
month-length table on every valid month, December (handled by the rollover
special case) included. -/
theorem days_in_month_eq_monthLength (y m : Nat) (h1 : 1 ≤ m) (h2 : m ≤ 12) :
    days_in_month y m = monthLength y m := by
  rcases Nat.eq_or_lt_of_le h2 with h12 | h12
  · subst h12
    rfl
  · have hne : ¬ ((m == 12) = true) := by simp; omega
    have hexp : daysBeforeMonth y (m + 1) = daysBeforeMonth y m + monthLength y m := rfl
    simp only [days_in_month, if_neg hne, dateToDays]
    omega

/-! ### C5: saturating `remaining` in every produced summary -/

/-- C5: for every `UsageSummary` the pipeline produces (`get_cached_usage` and
the summary built inside `fetch_usage`), for all `limit > 0`:
`remaining = limit - used` when `used ≤ limit`, and `remaining = 0` when
`used > limit` (saturating subtraction). -/
theorem c5_remaining_saturating (used limit : Nat) (now : Int) (hpos : 0 < limit) :
    (used ≤ limit →
      ((get_cached_usage used limit now).remaining : Int) = (limit : Int) - (used : Int) ∧
      ((fetch_usage_summary used limit now).remaining : Int) = (limit : Int) - (used : Int)) ∧
    (limit < used →
      (get_cached_usage used limit now).remaining = 0 ∧
      (fetch_usage_summary used limit now).remaining = 0) := by
  constructor
  · intro h
    constructor <;> · simp only [get_cached_usage, fetch_usage_summary]; omega
  · intro h
    constructor <;> · simp only [get_cached_usage, fetch_usage_summary]; omega

/-- Witness for C5 at `used = 3, limit = 10` and `used = 12, limit = 10`. -/
theorem c5_remaining_saturating_witness :
    ((get_cached_usage 3 10 0).remaining : Int) = (10 : Int) - (3 : Int) ∧
    (fetch_usage_summary 12 10 0).remaining = 0 :=
  ⟨((c5_remaining_saturating 3 10 0 (by decide)).1 (by decide)).1,
   ((c5_remaining_saturating 12 10 0 (by decide)).2 (by decide)).2⟩

/-! ### C9: history round-trip through the store -/

/-- C9: `set_usage_history` followed by `get_usage_history` yields the
entries unchanged and in order, whether or not the disk write succeeds. -/
theorem c9_history_roundtrip (s : StoreHistoryState) (entries : List UsageEntry)
    (diskWriteOk : Bool) :
    get_usage_history (set_usage_history s entries diskWriteOk) = entries := by
  cases diskWriteOk <;> simp [get_usage_history, set_usage_history]

/-! ### C3: the authentication invariant -/

/-- C3 counterexample: the `update_settings` command replaces the settings
object wholesale with no validation, so a frontend-supplied object with
`is_authenticated = true` and `customer_id = None` breaks the invariant. -/
theorem c3_counterexample :
    ¬ authInvariant (update_settings_command defaultAppSettings c3_bad_settings) := by
  decide

/-- C3 amended: `set_customer_id`, `clear_auth` and `reset_settings` establish
the invariant unconditionally, the field-wise setters preserve it, and the
`update_settings` command preserves it exactly when the settings object
supplied by the caller itself satisfies it. -/
theorem c3_auth_invariant (s : AppSettings) (id used limit : Nat) (now : Int)
    (enabled : Bool) (incoming : AppSettings) :
    authInvariant (set_customer_id s id) ∧
    authInvariant (clear_auth s) ∧
    authInvariant (reset_settings s) ∧
    (authInvariant s →
      authInvariant (set_usage s used limit now) ∧
      authInvariant (set_launch_at_login s enabled) ∧
      authInvariant (set_show_notifications s enabled)) ∧
    (authInvariant incoming → authInvariant (update_settings_command s incoming)) := by
  refine ⟨?_, ?_, ?_, fun h => ⟨h, h, h⟩, fun h => h⟩ <;>
    simp [authInvariant, set_customer_id, clear_auth, reset_settings, update_settings,
      defaultAppSettings]

/-- Witness for C3 amended at the default settings. -/
theorem c3_auth_invariant_witness :
    authInvariant (set_customer_id defaultAppSettings 5) ∧
    authInvariant (update_settings_command defaultAppSettings defaultAppSettings) :=
  ⟨(c3_auth_invariant defaultAppSettings 5 0 0 0 false defaultAppSettings).1,
   (c3_auth_invariant defaultAppSettings 5 0 0 0 false defaultAppSettings).2.2.2.2 (by decide)⟩

/-! ### C4: scheduler shutdown and debounce -/

/-- Helper: a restart attempted while the shutdown flag is set is a complete
no-op. -/
theorem restart_polling_shutdown (s : PollingState) (now i : Nat)
    (h : s.is_shutting_down = true) : restart_polling s now i = s := by
  simp [restart_polling, h]

/-- Helper: `stop_polling` never spawns and leaves the flag set. -/
theorem stop_polling_effects (s : PollingState) :
    (stop_polling s).is_shutting_down = true ∧
    (stop_polling s).spawn_count = s.spawn_count := by
  cases h : s.cancel_tx <;> simp [stop_polling, h]

/-- Helper: once the shutdown flag is set, any sequence of further scheduler
operations leaves it set and spawns no polling loop. -/
theorem apply_poll_ops_shutdown (ops : List PollOp) (s : PollingState)
    (h : s.is_shutting_down = true) :
    (apply_poll_ops s ops).is_shutting_down = true ∧
    (apply_poll_ops s ops).spawn_count = s.spawn_count := by
  induction ops generalizing s with
  | nil => exact ⟨h, rfl⟩
  | cons op rest ih =>
    cases op with
    | restart now i =>
      simpa [apply_poll_ops, apply_poll_op, restart_polling_shutdown _ now i h] using
        ih s h
    | stop =>
      have hs := stop_polling_effects s
      have hrest := ih (stop_polling s) hs.1
      constructor
      · simpa [apply_poll_ops, apply_poll_op] using hrest.1
      · simp only [apply_poll_ops, List.foldl_cons, apply_poll_op] at hrest ⊢
        rw [hrest.2, hs.2]

/-- C4: `restart_polling` is a no-op (no cancellation signal, no spawn, no
state change) while the shutdown flag is set, and also when the same interval
was requested within the previous 500 ms; `stop_polling` sets the flag
before signalling, and the flag is never cleared again, so no restart that
begins after a completed `stop_polling` ever spawns a polling loop. -/
theorem c4_restart_shutdown_and_debounce (s : PollingState) (now i : Nat)
    (ops : List PollOp) :
    (s.is_shutting_down = true → restart_polling s now i = s) ∧
    (s.last_interval = i → now - s.last_restart < POLLING_RESTART_DEBOUNCE_MS →
      restart_polling s now i = s) ∧
    (stop_polling s).is_shutting_down = true ∧
    (apply_poll_ops (stop_polling s) ops).spawn_count = s.spawn_count := by
  refine ⟨fun h => restart_polling_shutdown s now i h, fun h1 h2 => ?_, ?_, ?_⟩
  · by_cases hsd : s.is_shutting_down = true
    · exact restart_polling_shutdown s now i hsd
    · simp [restart_polling, hsd, h1, h2]
  · exact (stop_polling_effects s).1
  · have h := apply_poll_ops_shutdown ops (stop_polling s) (stop_polling_effects s).1
    rw [h.2, (stop_polling_effects s).2]

/-- Witness for C4 with a running scheduler state: a shutdown restart, a
debounced restart, and a stop followed by two restart attempts. -/
theorem c4_restart_shutdown_and_debounce_witness :
    restart_polling { cancel_tx := some 0, last_restart := 1000, last_interval := 60
                    , is_shutting_down := true, spawn_count := 1, cancel_signals := 0 } 1100 60 =
      { cancel_tx := some 0, last_restart := 1000, last_interval := 60
      , is_shutting_down := true, spawn_count := 1, cancel_signals := 0 } ∧
    restart_polling { cancel_tx := some 0, last_restart := 1000, last_interval := 60
                    , is_shutting_down := false, spawn_count := 1, cancel_signals := 0 } 1100 60 =
      { cancel_tx := some 0, last_restart := 1000, last_interval := 60
      , is_shutting_down := false, spawn_count := 1, cancel_signals := 0 } ∧
    (apply_poll_ops
      (stop_polling { cancel_tx := some 0, last_restart := 1000, last_interval := 60
                    , is_shutting_down := false, spawn_count := 1, cancel_signals := 0 })
      [PollOp.restart 2000 60, PollOp.restart 9999 30]).spawn_count = 1 :=
  ⟨(c4_restart_shutdown_and_debounce _ 1100 60 []).1 rfl,
   (c4_restart_shutdown_and_debounce _ 1100 60 []).2.1 rfl (by decide),
   (c4_restart_shutdown_and_debounce _ 0 0 [PollOp.restart 2000 60, PollOp.restart 9999 30]).2.2.2⟩

/-! ### C2: the `hidden_webview_event` push command -/

/-- C2 counterexample: with the sender installed, the receiver alive and the
channel buffer already at its capacity of 10, a push is *not* dropped — the
awaited send appends the event once capacity frees up (the command uses
`send(..).await`, not `try_send`). -/
theorem c2_counterexample :
    full_bridge.queue.length = bridge_channel_capacity ∧
    (hidden_webview_event full_bridge "x" "y").1.queue =
      full_bridge.queue ++ [{ event := "x", payload := "y" }] ∧
    (hidden_webview_event full_bridge "x" "y").1.queue ≠ full_bridge.queue := by
  refine ⟨rfl, rfl, ?_⟩
  decide

/-- C2 amended: the command always returns `Ok`; with a sender installed and
the receiver alive the event pair is enqueued (awaiting capacity rather than
being dropped when the channel is momentarily full); the event is lost only
when the receiver was dropped (send error, ignored) or when no sender is
installed, in which case nothing changes. -/
theorem c2_push_event_behavior (b : BridgeState) (event payload : String) :
    (hidden_webview_event b event payload).2 = Except.ok () ∧
    (b.sender_installed = true → b.receiver_alive = true →
      (hidden_webview_event b event payload).1.queue =
        b.queue ++ [{ event := event, payload := payload }]) ∧
    (b.sender_installed = true → b.receiver_alive = false →
      (hidden_webview_event b event payload).1 = b) ∧
    (b.sender_installed = false → (hidden_webview_event b event payload).1 = b) := by
  unfold hidden_webview_event mpsc_send_await
  by_cases hs : b.sender_installed <;> by_cases hr : b.receiver_alive <;>
    simp [hs, hr]

/-- Witness for C2 amended: an installed sender with a live receiver enqueues;
no installed sender discards with no state change. -/
theorem c2_push_event_behavior_witness :
    (hidden_webview_event { sender_installed := true, receiver_alive := true, queue := [] }
        "a" "p").1.queue = [{ event := "a", payload := "p" }] ∧
    (hidden_webview_event { sender_installed := false, receiver_alive := true, queue := [] }
        "a" "p").1 = { sender_installed := false, receiver_alive := true, queue := [] } :=
  ⟨(c2_push_event_behavior { sender_installed := true, receiver_alive := true, queue := [] }
      "a" "p").2.1 rfl rfl,
   (c2_push_event_behavior { sender_installed := false, receiver_alive := true, queue := [] }
      "a" "p").2.2.2 rfl⟩

/-! ### C7: empty-history behavior and confidence levels -/

/-- C7: prediction returns nothing for an empty history; for every non-empty
history (on any real date, whose day of month is at least 1) it returns a
prediction whose confidence is `low` for 1-2 entries, `medium` for 3-6 and
`high` for 7 or more. -/
theorem c7_predict_confidence (today : CivDate) (history : List UsageEntry)
    (used limit : Nat) (hne : history ≠ []) (hd : 1 ≤ today.day) :
    (∀ u l : Nat, predict_usage_from_history today [] u l = none) ∧
    (predict_usage_from_history today history used limit).map
        (fun p => p.confidence_level) =
      some (if history.length < 3 then "low"
            else if history.length < 7 then "medium" else "high") := by
  constructor
  · intro u l
    simp [predict_usage_from_history]
  · have hq : ¬ (((today.day : ℚ) == 0) = true) := by
      simp only [beq_iff_eq, Nat.cast_eq_zero]
      omega
    simp only [predict_usage_from_history, List.isEmpty_eq_true, hne, if_false, hq,
      Option.map_some]
    simp [hne]

/-- Witness for C7 with histories of length 3 (medium) and a nonzero day. -/
theorem c7_predict_confidence_witness :
    (∀ u l : Nat, predict_usage_from_history ⟨2024, 3, 15⟩ [] u l = none) ∧
    (predict_usage_from_history ⟨2024, 3, 15⟩ [sampleEntry, sampleEntry, sampleEntry]
        10 300).map (fun p => p.confidence_level) = some "medium" :=
  ⟨(c7_predict_confidence ⟨2024, 3, 15⟩ [sampleEntry] 0 0 (by simp) (by decide)).1,
   (c7_predict_confidence ⟨2024, 3, 15⟩ [sampleEntry, sampleEntry, sampleEntry] 10 300
      (by simp) (by decide)).2⟩

/-! ### C10: synthesis of a cache entry by `get_cached_history` -/

/-- C10 counterexample: the `as u32` casts in `get_cached_history` truncate,
so with an empty stored history and a cache whose `discount_quantity` is
`2^32` the synthesized entry's `used` is `0`, not the cache's
`discount_quantity`. -/
theorem c10_counterexample :
    (get_cached_history [] (some c10cache)).map (fun e => e.used) = [0] ∧
    c10cache.discount_quantity ≠ 0 := by
  constructor
  · decide
  · decide

/-- C10 amended: a non-empty stored history is returned unchanged; with an
empty history and a cache snapshot, exactly one entry is synthesized whose
`used` and `included_requests` are the cache's `discount_quantity` reduced
modulo `2^32`, whose `billed_requests` is `net_quantity` saturating-minus
`discount_quantity` reduced modulo `2^32`, whose `limit` is
`user_premium_request_entitlement` reduced modulo `2^32` (the `u64 → u32`
casts truncate; the values agree with the cache fields whenever those fit in
32 bits), and whose `gross_amount` and `billed_amount` are both the cache's
`net_billed_amount`; the empty list is returned exactly when both the history
and the cache are empty. -/
theorem c10_cached_history_synthesis (history : List UsageEntry)
    (cache : Option UsageCache) (c : UsageCache) (hne : history ≠ []) :
    get_cached_history history cache = history ∧
    get_cached_history [] (some c) =
      [{ timestamp := c.timestamp
       , used := c.discount_quantity % 2 ^ 32
       , limit := c.user_premium_request_entitlement % 2 ^ 32
       , included_requests := c.discount_quantity % 2 ^ 32
       , billed_requests := (c.net_quantity - c.discount_quantity) % 2 ^ 32
       , gross_amount := c.net_billed_amount
       , billed_amount := c.net_billed_amount }] ∧
    get_cached_history [] none = [] ∧
    (∀ (h : List UsageEntry) (k : Option UsageCache),
      get_cached_history h k = [] ↔ h = [] ∧ k = none) := by
  refine ⟨by simp [get_cached_history, hne], by simp [get_cached_history, u32Cast], rfl, ?_⟩
  intro h k
  cases h with
  | nil => cases k <;> simp [get_cached_history]
  | cons e t => cases k <;> simp [get_cached_history]

/-- Witness for C10 amended at a non-empty history and the oversized cache. -/
theorem c10_cached_history_synthesis_witness :
    get_cached_history [sampleEntry] (some c10cache) = [sampleEntry] ∧
    get_cached_history [] (some c10cache) =
      [{ timestamp := c10cache.timestamp
       , used := c10cache.discount_quantity % 2 ^ 32
       , limit := c10cache.user_premium_request_entitlement % 2 ^ 32
       , included_requests := c10cache.discount_quantity % 2 ^ 32
       , billed_requests := (c10cache.net_quantity - c10cache.discount_quantity) % 2 ^ 32
       , gross_amount := c10cache.net_billed_amount
       , billed_amount := c10cache.net_billed_amount }] :=
  ⟨(c10_cached_history_synthesis [sampleEntry] (some c10cache) c10cache (by simp)).1,
   (c10_cached_history_synthesis [sampleEntry] (some c10cache) c10cache (by simp)).2.1⟩

/-! ### C8: shape of `map_history_rows` -/

/-- C8 counterexample: `used` is computed by `u32` addition (usage.rs:226),
which wraps: a row with `included_requests = billed_requests = 2^31` (both
representable) maps to an entry whose `used` is `0`, not the claimed sum
`2^32`. -/
theorem c8_counterexample :
    (map_history_rows (fun _ => none) (fun _ => none) 0 [c8_overflow_row]).map
        (fun e => e.used) = [0] ∧
    c8_overflow_row.included_requests + c8_overflow_row.billed_requests = 2 ^ 32 ∧
    (0 : Nat) ≠ 2 ^ 32 := by
  refine ⟨?_, by decide, by decide⟩
  decide

/-- C8 amended: `map_history_rows` returns a permutation of the
pointwise-mapped rows (no row is ever dropped or turned into an error),
sorted descending by timestamp; each mapped entry's `used` is
`included_requests + billed_requests` reduced modulo `2 ^ 32` (the `u32`
addition wraps, so it is the plain sum whenever that fits in 32 bits), and
its timestamp comes from the RFC3339 parse, else the `"%Y-%m-%d"` parse of
the first space-separated chunk at midnight UTC, else the current time. -/
theorem c8_map_history_rows_shape (rfc3339 : String → Option Int)
    (parseYMD : String → Option CivDate) (now : Int) (rows : List UsageHistoryRow) :
    (map_history_rows rfc3339 parseYMD now rows).Perm
      (rows.map (row_to_entry rfc3339 parseYMD now)) ∧
    (map_history_rows rfc3339 parseYMD now rows).Sorted
      (fun a b => b.timestamp ≤ a.timestamp) ∧
    (∀ row : UsageHistoryRow,
      (row_to_entry rfc3339 parseYMD now row).used =
        (row.included_requests + row.billed_requests) % 2 ^ 32) ∧
    (∀ row : UsageHistoryRow,
      (row_to_entry rfc3339 parseYMD now row).timestamp =
        match rfc3339 row.date with
        | some ts => ts
        | none =>
          match parseYMD ((row.date.splitOn " ").headD "") with
          | some d => dateToTimestamp d
          | none => now) := by
  refine ⟨List.perm_insertionSort _ _, ?_, fun row => rfl, fun row => rfl⟩
  haveI : IsTotal UsageEntry (fun a b => b.timestamp ≤ a.timestamp) :=
    ⟨fun a b => le_total b.timestamp a.timestamp⟩
  haveI : IsTrans UsageEntry (fun a b => b.timestamp ≤ a.timestamp) :=
    ⟨fun a b c hab hbc => le_trans hbc hab⟩
  exact List.sorted_insertionSort _ _

/-! ### C6: the prediction formulas -/

/-- Helper: evaluation of `predict_usage_from_history` on a non-empty history
and a day of month of at least 1, in terms of the code's own
`days_in_month`. -/
theorem predict_formula_eval (today : CivDate) (history : List UsageEntry)
    (used limit : Nat) (hne : history ≠ []) (hd : 1 ≤ today.day) :
    predict_usage_from_history today history used limit =
      some
        { predicted_monthly_requests := f32ToU32 (round (max ((used : ℚ) +
            ((used : ℚ) / (today.day : ℚ)) *
            ((days_in_month today.year today.month : ℚ) - (today.day : ℚ))) 0))
        , predicted_billed_amount :=
            ((f32ToU32 (round (max ((used : ℚ) + ((used : ℚ) / (today.day : ℚ)) *
              ((days_in_month today.year today.month : ℚ) - (today.day : ℚ))) 0)) - limit : Nat) : ℚ) *
              (4 / 100)
        , confidence_level :=
            if history.length < 3 then "low"
            else if history.length < 7 then "medium" else "high"
        , days_used_for_prediction := u32Cast history.length } := by
  have hq : ¬ ((((today.day : Nat) : ℚ)) == 0) = true := by
    simp only [beq_iff_eq, Nat.cast_eq_zero]
    omega
  simp only [predict_usage_from_history, List.isEmpty_eq_true, hne, if_false, hq]
  simp [hne]

/-- C6 counterexample: the final `as u32` cast saturates, so for the
(representable) input `used = u32::MAX` on the first day of a 31-day month
the code produces `4294967295` while the claimed unclamped
`round(max(0, used + dailyAverage * remainingDays))` is `133143986145`. -/
theorem c6_counterexample :
    (predict_usage_from_history ⟨2025, 1, 1⟩ [sampleEntry] 4294967295 0).map
        (fun p => p.predicted_monthly_requests) = some 4294967295 ∧
    round (max ((4294967295 : ℚ) + ((4294967295 : ℚ) / ((1 : Nat) : ℚ)) *
        (((days_in_month 2025 1 : Nat) : ℚ) - ((1 : Nat) : ℚ))) 0) = (133143986145 : ℤ) ∧
    (133143986145 : ℤ) ≠ (4294967295 : ℤ) := by
  have hdim : days_in_month 2025 1 = 31 := by decide
  refine ⟨?_, ?_, by decide⟩
  · have h := predict_formula_eval ⟨2025, 1, 1⟩ [sampleEntry] 4294967295 0 (by simp) (by decide)
    rw [h]
    simp only [Option.map_some]
    norm_num [hdim, f32ToU32, u32Max, round_eq]
  · norm_num [hdim, round_eq]

/-- C6 amended: for every non-empty history on a valid current date, the code
computes `daysInMonth` as first-of-next-month minus first-of-month (December
mapped to 31 by the rollover case), agreeing with the Gregorian month-length
table; `dailyAverage = used / currentDay`,
`remainingDays = daysInMonth - currentDay`,
`predictedMonthlyRequests = round(max(0, used + dailyAverage * remainingDays))`
clamped into the `u32` range (the float→integer cast saturates), and
`predictedBilledAmount = max(0, predictedMonthlyRequests - limit) * 0.04`. -/
theorem c6_prediction_formulas (today : CivDate) (history : List UsageEntry)
    (used limit : Nat) (hne : history ≠ []) (hm1 : 1 ≤ today.month)
    (hm2 : today.month ≤ 12) (hd : 1 ≤ today.day) :
    days_in_month today.year today.month = monthLength today.year today.month ∧
    (predict_usage_from_history today history used limit).map
        (fun p => p.predicted_monthly_requests) =
      some (f32ToU32 (round (max ((used : ℚ) + ((used : ℚ) / (today.day : ℚ)) *
        ((monthLength today.year today.month : ℚ) - (today.day : ℚ))) 0))) ∧
    (predict_usage_from_history today history used limit).map
        (fun p => p.predicted_billed_amount) =
      some (((f32ToU32 (round (max ((used : ℚ) + ((used : ℚ) / (today.day : ℚ)) *
        ((monthLength today.year today.month : ℚ) - (today.day : ℚ))) 0)) - limit : Nat) : ℚ) *
        (4 / 100)) := by
  have hdim := days_in_month_eq_monthLength today.year today.month hm1 hm2
  have h := predict_formula_eval today history used limit hne hd
  refine ⟨hdim, ?_, ?_⟩ <;> rw [h, hdim] <;> rfl

/-- Witness for C6 amended on the spec's own scenario: day 15 of March 2024
(31 days), one history entry, `used = 10`, `limit = 300` gives a predicted
monthly total of 21 and a predicted bill of 0. -/
theorem c6_prediction_formulas_witness :
    (predict_usage_from_history ⟨2024, 3, 15⟩ [sampleEntry] 10 300).map
        (fun p => p.predicted_monthly_requests) = some 21 ∧
    (predict_usage_from_history ⟨2024, 3, 15⟩ [sampleEntry] 10 300).map
        (fun p => p.predicted_billed_amount) = some 0 := by
  have h := c6_prediction_formulas ⟨2024, 3, 15⟩ [sampleEntry] 10 300 (by simp)
    (by decide) (by decide) (by decide)
  constructor
  · rw [h.2.1]
    norm_num [monthLength, f32ToU32, u32Max, round_eq]
    decide
  · rw [h.2.2]
    norm_num [monthLength, f32ToU32, u32Max, round_eq]

/-! ### C1: the timed-out extraction attempt -/

/-- C1: when the terminal `auth:extraction:complete` event does not arrive on
the bridge within the 30-second deadline, `perform_extraction` returns `Ok`
of an `ExtractionResult` with `customer_id`, `usage_data` and `usage_history`
all `None` and `error = Some("Extraction timed out")`, and on this exit path
the hidden webview window is closed (and the global sender slot cleared). -/
theorem c1_timeout_outcome (parse : String → Option Json) (pU32 : String → Option Nat)
    (pF64 : String → Option ℚ) (events : List HiddenWebviewEvent)
    (hnc : ∀ ev ∈ events, ev.event ≠ "auth:extraction:complete") :
    perform_extraction parse pU32 pF64 true events =
      { result := Except.ok timed_out_result
      , window_closed := true
      , sender_cleared := true } ∧
    timed_out_result =
      { customer_id := none, usage_data := none, usage_history := none
      , error := some "Extraction timed out" } := by
  have hany : events.any (fun ev => ev.event == "auth:extraction:complete") = false := by
    simp only [List.any_eq_false, beq_iff_eq]
    exact hnc
  refine ⟨?_, rfl⟩
  simp [perform_extraction, hany, timed_out_result]

/-- Witness for C1: a single non-terminal event delivered before the deadline
still yields the timed-out result with the window closed. -/
theorem c1_timeout_outcome_witness :
    perform_extraction (fun _ => none) (fun _ => none) (fun _ => none) true
        [{ event := "auth:extraction:customer", payload := "x" }] =
      { result := Except.ok timed_out_result
      , window_closed := true
      , sender_cleared := true } ∧
    timed_out_result =
      { customer_id := none, usage_data := none, usage_history := none
      , error := some "Extraction timed out" } :=
  c1_timeout_outcome (fun _ => none) (fun _ => none) (fun _ => none)
    [{ event := "auth:extraction:customer", payload := "x" }] (by decide)
